import Mathlib

/-!
Verification of the emotional-analysis pipeline of the emotion-companion
repository (backend/nlp.py, backend/ml_service.py, backend/suggestions.py).

The Python code is shallowly embedded: floats are modelled as rationals,
Python dicts as insertion-ordered association lists, and the external
model/pipeline objects (HuggingFace pipelines, VADER, scikit-learn models,
RAKE) as explicit environment parameters whose outcomes (unavailable /
raises / returns a value) are represented with Option.
-/

-- Batteries marks the arithmetic on ℚ irreducible, which blocks evaluation
-- of concrete instances by decide; restore the default reducibility here.
attribute [local semireducible] Rat.add Rat.mul Rat.sub Rat.inv

namespace EmotionCompanion

/-- Python's built-in round-half-to-even (banker's rounding) on a rational,
as used by round(x) on floats. -/
def pyRound (q : ℚ) : ℤ :=
  if q - ⌊q⌋ < 1/2 then ⌊q⌋
  else if 1/2 < q - ⌊q⌋ then ⌊q⌋ + 1
  else if ⌊q⌋ % 2 = 0 then ⌊q⌋ else ⌊q⌋ + 1

/-- Python's round(x, 3): round half-to-even at three decimal places. -/
def round3 (q : ℚ) : ℚ := (pyRound (q * 1000) : ℚ) / 1000

/-- Contiguous-sublist (infix) test on character lists. -/
def listIsInfixOf (needle : List Char) : List Char → Bool
  | [] => needle.isEmpty
  | c :: t => needle.isPrefixOf (c :: t) || listIsInfixOf needle t

/-- Python's substring test needle in hay. -/
def strContains (hay needle : String) : Bool :=
  listIsInfixOf needle.data hay.data

/-- Python's str.lower(), modelled as a character-wise lowercasing of the
string's character list (all text handled here is ASCII). -/
def pyLower (s : String) : String :=
  ⟨s.data.map Char.toLower⟩

/-- Helper for pySplitWs: walk the characters, collecting the current word
in an accumulator. -/
def splitWsAux : List Char → List Char → List String
  | [], acc => if acc.isEmpty then [] else [⟨acc.reverse⟩]
  | c :: t, acc =>
    if c.isWhitespace then
      (if acc.isEmpty then [] else [⟨acc.reverse⟩]) ++ splitWsAux t []
    else splitWsAux t (c :: acc)

/-- Python's str.split() with no argument: split on whitespace runs,
dropping empty pieces. -/
def pySplitWs (s : String) : List String :=
  splitWsAux s.data []

/-- First-position lookup in an insertion-ordered association list, the
shape used to embed Python dict reads d[k] / d.get(k). -/
def assocFind {α : Type} (l : List (String × α)) (k : String) : Option α :=
  match l.find? (fun p => p.1 == k) with
  | some p => some p.2
  | none => none

end EmotionCompanion

namespace EmotionCompanion.Suggestions

open EmotionCompanion

/-- backend/suggestions.py, SUGGESTIONS_DATABASE: evidence-based coping
strategies keyed by emotion and then by life domain. -/
def SUGGESTIONS_DATABASE : List (String × List (String × List String)) :=
  [("anxiety",
    [("work",
      ["Break down your tasks into smaller, manageable steps",
       "Practice the 5-4-3-2-1 grounding technique: name 5 things you see, 4 you hear, 3 you can touch, 2 you smell, 1 you taste",
       "Take a 10-minute walk to clear your mind and reset",
       "Write down your worries and challenge them with evidence",
       "Use the Pomodoro technique: 25 minutes focused work, 5 minutes break"]),
     ("relationships",
      ["Communicate your feelings using \x27I\x27 statements",
       "Take deep breaths before responding in difficult conversations",
       "Write down what you want to say before the conversation",
       "Remember: you can only control your own actions, not others\x27 reactions",
       "Consider if this worry will matter in 5 years"]),
     ("general",
      ["Practice box breathing: inhale 4 counts, hold 4, exhale 4, hold 4",
       "Progressive muscle relaxation: tense and release each muscle group",
       "Listen to calming music or nature sounds",
       "Limit caffeine and stay hydrated",
       "Journal your thoughts to externalize worries"]),
     ("health",
      ["Focus on what you can control right now",
       "Reach out to a healthcare professional if concerns persist",
       "Practice gentle movement like stretching or yoga",
       "Avoid excessive health-related internet searches",
       "Connect with supportive friends or family"])]),
   ("sadness",
    [("general",
      ["Allow yourself to feel - emotions are valid and temporary",
       "Reach out to a trusted friend or family member",
       "Engage in a small act of self-care (shower, favorite meal, cozy space)",
       "Get outside for 15 minutes - sunlight and fresh air help",
       "Write about what you\x27re feeling without judgment"]),
     ("relationships",
      ["Remember that healing takes time",
       "Focus on connections that bring you comfort",
       "It\x27s okay to set boundaries while you process",
       "Consider writing a letter (you don\x27t have to send it)",
       "Seek support from a counselor if feelings persist"]),
     ("work",
      ["Take a mental health day if possible",
       "Talk to your supervisor about workload if overwhelmed",
       "Celebrate small wins, even tiny ones",
       "Connect with supportive colleagues",
       "Remember: your worth isn\x27t defined by productivity"])]),
   ("anger",
    [("general",
      ["Take a timeout before responding - count to 10 slowly",
       "Physical activity can help release tension (walk, exercise)",
       "Write down what\x27s bothering you, then tear it up",
       "Practice the STOP technique: Stop, Take a breath, Observe, Proceed mindfully",
       "Ask yourself: Will this matter in a week? A month? A year?"]),
     ("relationships",
      ["Use \x27I feel\x27 statements instead of \x27You always/never\x27",
       "Take a break if the conversation gets too heated",
       "Focus on the specific issue, not the person",
       "Listen to understand, not just to respond",
       "Consider if there\x27s hurt or fear underneath the anger"]),
     ("work",
      ["Step away from the situation if possible",
       "Document facts objectively if it\x27s a workplace issue",
       "Channel energy into problem-solving rather than blame",
       "Talk to HR or a supervisor if it\x27s a serious concern",
       "Practice assertive (not aggressive) communication"])]),
   ("joy",
    [("general",
      ["Savor this moment - take a mental snapshot",
       "Share your joy with someone you care about",
       "Write down what made you happy to revisit later",
       "Express gratitude for the good things",
       "Use this positive energy for something creative or productive"])]),
   ("fear",
    [("general",
      ["Ground yourself in the present moment",
       "Ask: What\x27s the worst that could happen? How would I handle it?",
       "Break down the fear into specific, manageable concerns",
       "Talk to someone you trust about what scares you",
       "Remember times you\x27ve overcome challenges before"])]),
   ("neutral",
    [("general",
      ["Use this calm moment for reflection or planning",
       "Practice gratitude - list 3 things you\x27re thankful for",
       "Set a small, achievable goal for today",
       "Check in with yourself: What do you need right now?",
       "Engage in a mindful activity (tea, walk, music)"])])]

/-- One entry of INTENSITY_MODIFIERS; msgTemplate embeds the dict's
"prefix" string. -/
structure IntensityModifier where
  msgTemplate : String
  suggestions : List String

/-- backend/suggestions.py, INTENSITY_MODIFIERS. -/
def INTENSITY_MODIFIERS : List (String × IntensityModifier) :=
  [("mild",
    { msgTemplate := "Since you\x27re experiencing mild \x7bemotion\x7d, "
      suggestions :=
        ["This is a good time for gentle self-reflection",
         "Consider journaling to explore these feelings",
         "A short walk or stretch might help"] }),
   ("moderate",
    { msgTemplate := "You\x27re experiencing moderate \x7bemotion\x7d. "
      suggestions :=
        ["It\x27s important to address these feelings",
         "Consider talking to someone you trust",
         "Take some time for self-care today"] }),
   ("intense",
    { msgTemplate := "You\x27re experiencing intense \x7bemotion\x7d. "
      suggestions :=
        ["Please prioritize your wellbeing right now",
         "Consider reaching out to a mental health professional",
         "If you\x27re in crisis, contact a crisis helpline immediately",
         "You don\x27t have to face this alone - support is available"] })]

/-- backend/suggestions.py, CRISIS_RESOURCES helpline text block. -/
def CRISIS_RESOURCES : String :=
  "\nIf you\x27re experiencing a mental health crisis:\n• National Suicide Prevention Lifeline: 988 (US)\n• Crisis Text Line: Text HOME to 741741\n• International Association for Suicide Prevention: https://www.iasp.info/resources/Crisis_Centres/\n"

def work_keywords : List String :=
  ["work", "job", "boss", "colleague", "office", "career", "project",
   "deadline", "meeting", "presentation"]

def relationship_keywords : List String :=
  ["relationship", "partner", "spouse", "friend", "family", "love",
   "breakup", "argument", "lonely"]

def health_keywords : List String :=
  ["health", "sick", "pain", "doctor", "medical", "illness", "body",
   "physical"]

/-- sum(1 for kw in kws if kw in text_lower): number of keywords occurring
as substrings. -/
def keywordCount (kws : List String) (text_lower : String) : ℕ :=
  (kws.filter (fun kw => strContains text_lower kw)).length

/-- backend/suggestions.py, get_life_domain: keyword voting over the
lowercased text with the branch order of the source. -/
def get_life_domain (text : String) : String :=
  let text_lower := pyLower text
  let work_count := keywordCount work_keywords text_lower
  let relationship_count := keywordCount relationship_keywords text_lower
  let health_count := keywordCount health_keywords text_lower
  if work_count > relationship_count ∧ work_count > health_count then "work"
  else if relationship_count > work_count ∧ relationship_count > health_count then
    "relationships"
  else if health_count > 0 then "health"
  else "general"

/-- backend/suggestions.py, get_emotion_intensity: mood-score banding with
a confidence test on the extreme band. -/
def get_emotion_intensity (mood_score : ℤ) (emotion_confidence : ℚ) : String :=
  if mood_score ≤ 3 ∨ mood_score ≥ 8 then
    if emotion_confidence > 7/10 then "intense" else "moderate"
  else if mood_score ≤ 5 ∨ mood_score ≥ 7 then "moderate"
  else "mild"

/-- The emotion normalization at the top of
generate_personalized_suggestions: lowercase, then default to "neutral"
when the lowercased name is not a key of SUGGESTIONS_DATABASE. -/
def normalize_emotion (emotion : String) : String :=
  if (assocFind SUGGESTIONS_DATABASE (pyLower emotion)).isSome then pyLower emotion
  else "neutral"

/-- Result record of generate_personalized_suggestions. -/
structure PersonalizedSuggestions where
  suggestions : List String
  emotion : String
  domain : String
  intensity : String
  crisis_resources : Option String

/-- backend/suggestions.py, generate_personalized_suggestions. The random
sampling random.sample(pool, k) is abstracted into the explicit oracle
argument sample, called exactly where the source calls random.sample. -/
def generate_personalized_suggestions (sample : List String → ℕ → List String)
    (emotion : String) (mood_score : ℤ) (text : String)
    (emotion_confidence : ℚ) : PersonalizedSuggestions :=
  let emotion_lower := normalize_emotion emotion
  let domain := get_life_domain text
  let intensity := get_emotion_intensity mood_score emotion_confidence
  let dbEntry := (assocFind SUGGESTIONS_DATABASE emotion_lower).getD []
  let domain_part :=
    match assocFind dbEntry domain with
    | some domain_suggestions =>
        sample domain_suggestions (min 2 domain_suggestions.length)
    | none => []
  let general_part :=
    match assocFind dbEntry "general" with
    | some general_suggestions =>
        sample general_suggestions (min 3 general_suggestions.length)
    | none => []
  let intensity_part :=
    match assocFind INTENSITY_MODIFIERS intensity with
    | some m => m.suggestions.take 2
    | none => []
  let all := domain_part ++ general_part ++ intensity_part
  let include_crisis :=
    intensity = "intense" ∧ emotion_lower ∈ ["sadness", "anxiety", "fear"]
  { suggestions := all.take 5
    emotion := emotion
    domain := domain
    intensity := intensity
    crisis_resources := if include_crisis then some CRISIS_RESOURCES else none }

end EmotionCompanion.Suggestions

namespace EmotionCompanion

/-- First maximal element of a rational list (the value Python's max()
returns on the values of a score dict); none exactly on the empty list,
where Python's max() raises ValueError. -/
def listMaxQ : List ℚ → Option ℚ
  | [] => none
  | x :: xs => some (xs.foldl (fun a b => if a < b then b else a) x)

/-- Python's max(items, key=lambda x: x[1]) over dict items: the first
pair with maximal second component; none exactly on the empty list. -/
def maxByValue : List (String × ℚ) → Option (String × ℚ)
  | [] => none
  | x :: xs => some (xs.foldl (fun acc y => if y.2 > acc.2 then y else acc) x)

/-- Sentiment result record shared by nlp.sentiment and
ml_service.predict_sentiment; method is none where the Python dict has no
"method" key. -/
structure SentimentResult where
  label : String
  score : ℚ
  confidence : ℚ
  method : Option String
deriving DecidableEq

end EmotionCompanion

namespace EmotionCompanion.MlService

open EmotionCompanion

/-- A loaded scikit-learn sentiment model: its classes_ attribute and its
predict / predict_proba methods on a single text; a method returning none
models a raised exception (caught by the source's except handler). -/
structure SentModel where
  classes : List String
  predict : String → Option String
  proba : String → Option (List ℚ)

/-- The fixed dict predict_sentiment returns when the model is missing or
prediction fails; it carries no "method" key. -/
def sentFallback : SentimentResult :=
  { label := "NEUTRAL", score := 0, confidence := 0, method := none }

/-- backend/ml_service.py, predict_sentiment: confidence is the maximum
class probability and score maps P(POSITIVE) affinely onto [-1,1]. The
unused neg_prob binding of the source is dropped. -/
def predict_sentiment (m? : Option SentModel) (text : String) : SentimentResult :=
  match m? with
  | none => sentFallback
  | some m =>
    match m.predict text with
    | none => sentFallback
    | some prediction =>
      match m.proba text with
      | none => sentFallback
      | some probas =>
        match listMaxQ probas with
        | none => sentFallback
        | some confidence =>
          let pos_index :=
            if "POSITIVE" ∈ m.classes then m.classes.indexOf "POSITIVE" else 1
          match probas.get? pos_index with
          | none => sentFallback
          | some pos_prob =>
            { label := prediction
              score := round3 ((pos_prob - 1/2) * 2)
              confidence := round3 confidence
              method := some "logistic_regression" }

/-- A loaded scikit-learn emotion model (same shape as SentModel). -/
structure EmoModel where
  classes : List String
  predict : String → Option String
  proba : String → Option (List ℚ)

/-- Result record of ml_service.predict_emotion. -/
structure EmotionPred where
  primary_emotion : String
  emotion_scores : List (String × ℚ)
  method : Option String

/-- The fixed dict predict_emotion returns when the model is missing or
prediction fails. -/
def emoFallback : EmotionPred :=
  { primary_emotion := "neutral", emotion_scores := [("neutral", 1/2)], method := none }

/-- backend/ml_service.py, predict_emotion: primary label from predict,
score dict from zipping classes_ with the probability vector (scikit-learn
class labels are pairwise distinct, so the dict comprehension is a plain
zip). -/
def predict_emotion (m? : Option EmoModel) (text : String) : EmotionPred :=
  match m? with
  | none => emoFallback
  | some m =>
    match m.predict text with
    | none => emoFallback
    | some primary =>
      match m.proba text with
      | none => emoFallback
      | some probas =>
        { primary_emotion := primary
          emotion_scores := (m.classes.zip probas).map (fun cp => (cp.1, round3 cp.2))
          method := some "naive_bayes" }

end EmotionCompanion.MlService

namespace EmotionCompanion.Nlp

open EmotionCompanion

/-- Join a list of strings with a separator, Python's sep.join(...). -/
def joinWith (sep : String) : List String → String
  | [] => ""
  | [x] => x
  | x :: y :: t => x ++ sep ++ joinWith sep (y :: t)

/-- text[:512] on an ASCII-modelled string. -/
def strTake (s : String) (n : ℕ) : String :=
  ⟨s.data.take n⟩

/-- backend/nlp.py, preprocess: lowercase, collapse whitespace runs to a
single space, strip; re.sub followed by strip is modelled as re-joining
the whitespace-separated tokens. -/
def preprocess (text : String) : String :=
  joinWith " " (pySplitWs (pyLower text))

/-- backend/nlp.py, EMOTION_KEYWORDS, in source (dict insertion) order. -/
def EMOTION_KEYWORDS : List (String × List String) :=
  [("happy",
    ["happy", "joy", "excited", "great", "wonderful", "amazing", "fantastic",
     "delighted", "cheerful", "pleased", "glad", "content", "thrilled"]),
   ("sad",
    ["sad", "unhappy", "depressed", "down", "miserable", "gloomy", "sorrowful",
     "heartbroken", "disappointed", "upset", "blue", "melancholy"]),
   ("angry",
    ["angry", "mad", "furious", "irritated", "annoyed", "frustrated", "rage",
     "outraged", "hostile", "resentful", "bitter"]),
   ("anxious",
    ["anxious", "worried", "nervous", "stressed", "tense", "uneasy", "fearful",
     "concerned", "apprehensive", "restless", "panic"]),
   ("fear",
    ["afraid", "scared", "terrified", "frightened", "alarmed", "horrified",
     "threatened", "intimidated", "dread"]),
   ("calm",
    ["calm", "peaceful", "relaxed", "serene", "tranquil", "composed", "balanced",
     "centered", "quiet", "still"]),
   ("surprise",
    ["surprised", "shocked", "astonished", "amazed", "startled", "stunned",
     "unexpected", "sudden"])]

/-- Entry of the emotion→emoji/suggestions table. -/
structure EmojiEntry where
  emoji : String
  suggestions : List String
deriving DecidableEq

/-- backend/nlp.py, load_emoji_map. The function first tries to read
utils/emoji_map.json, a resource that is not part of the repository; the
value modelled is the complete built-in fallback table the function
returns otherwise. -/
def load_emoji_map : List (String × EmojiEntry) :=
  [("happy",
    { emoji := "😊"
      suggestions :=
        ["Celebrate this positive moment!",
         "Share your joy with someone",
         "Write down what made you happy"] }),
   ("sad",
    { emoji := "😢"
      suggestions :=
        ["It\x27s okay to feel sad. Be gentle with yourself",
         "Try some deep breathing exercises",
         "Reach out to a friend or loved one"] }),
   ("angry",
    { emoji := "😠"
      suggestions :=
        ["Take 10 deep breaths before reacting",
         "Go for a walk to cool down",
         "Write down what\x27s making you angry"] }),
   ("anxious",
    { emoji := "😰"
      suggestions :=
        ["Practice the 5-4-3-2-1 grounding technique",
         "Focus on what you can control",
         "Try progressive muscle relaxation"] }),
   ("fear",
    { emoji := "😨"
      suggestions :=
        ["Remind yourself that you are safe right now",
         "Talk to someone you trust",
         "Practice deep breathing"] }),
   ("calm",
    { emoji := "😌"
      suggestions :=
        ["Enjoy this peaceful moment",
         "Practice gratitude",
         "Maintain your current routine"] }),
   ("surprise",
    { emoji := "😲"
      suggestions :=
        ["Take a moment to process this",
         "Write about how you feel",
         "Talk it through with someone"] }),
   ("neutral",
    { emoji := "😐"
      suggestions :=
        ["Check in with yourself regularly",
         "Try journaling about your day",
         "Practice mindfulness"] })]

/-- emoji_map.get(primary_emotion, \x7b\x7d).get("emoji", "😐"). -/
def emojiFor (m : List (String × EmojiEntry)) (e : String) : String :=
  match assocFind m e with
  | some entry => entry.emoji
  | none => "😐"

/-- Availability/behaviour of the process-wide classifier globals that
nlp.sentiment reads (sentiment_pipeline, vader_analyzer) together with the
trained ml_service model; a pipeline returning none models a prediction
call that raises (caught by the source). nlp.sentiment's body never reads
the trained field, mirroring the source, which never calls
ml_service.predict_sentiment. -/
structure SentimentEnv where
  hf : Option (String → Option (String × ℚ))
  vader : Option (String → Option ℚ)
  trained : Option MlService.SentModel

/-- The terminal neutral fallback of nlp.sentiment. -/
def sentimentFallback : SentimentResult :=
  { label := "NEUTRAL", score := 0, confidence := 0, method := some "fallback" }

/-- The VADER tier of nlp.sentiment: label by thresholding the compound
score at ±0.05, confidence its absolute value. -/
def sentimentVader (env : SentimentEnv) (text : String) : SentimentResult :=
  match env.vader with
  | some analyzer =>
    match analyzer text with
    | some compound =>
      { label :=
          if compound ≥ 5/100 then "POSITIVE"
          else if compound ≤ -(5/100) then "NEGATIVE"
          else "NEUTRAL"
        score := round3 compound
        confidence := round3 |compound|
        method := some "vader" }
    | none => sentimentFallback
  | none => sentimentFallback

/-- backend/nlp.py, sentiment: HuggingFace tier on text[:512] first, then
VADER, then the terminal neutral fallback. -/
def sentiment (env : SentimentEnv) (text : String) : SentimentResult :=
  match env.hf with
  | some pipe =>
    match pipe (strTake text 512) with
    | some (label, confidence) =>
      { label := label
        score := round3 (if label = "POSITIVE" then confidence else -confidence)
        confidence := round3 confidence
        method := some "huggingface" }
    | none => sentimentVader env text
  | none => sentimentVader env text

/-- Emotion result record of nlp.emotion. -/
structure EmotionResult where
  primary_emotion : String
  emotion_scores : List (String × ℚ)
  emoji : String
  method : Option String

/-- Availability/behaviour of the process-wide emotion_pipeline global. -/
structure EmotionEnv where
  pipe : Option (String → Option (List (String × ℚ)))

/-- Python dict assignment d[k] = v on an insertion-ordered association
list: update in place if the key exists, else append. -/
def pyDictInsert (l : List (String × ℚ)) (k : String) (v : ℚ) : List (String × ℚ) :=
  if l.any (fun p => p.1 == k) then
    l.map (fun p => if p.1 == k then (k, v) else p)
  else l ++ [(k, v)]

/-- Build a Python dict from a sequence of key/value pairs (the dict
comprehension over the pipeline results). -/
def pyDict (ps : List (String × ℚ)) : List (String × ℚ) :=
  ps.foldl (fun acc p => pyDictInsert acc p.1 p.2) []

/-- The keyword tier of nlp.emotion: per-emotion substring-hit counts over
the lowercased text, normalized by word count, scaled by 10, clamped to
[0,1] and rounded to 3 decimals; the primary emotion is the first maximal
entry. The else branch (neutral, 0.5) is taken exactly when the score dict
is empty, as in the source, where the dict always has one entry per
EMOTION_KEYWORDS key. -/
def emotionKeywordTier (text : String) : EmotionResult :=
  let text_lower := pyLower text
  let word_count := (pySplitWs text_lower).length
  let emotion_scores := EMOTION_KEYWORDS.map (fun e =>
    let count := (e.2.filter (fun kw => strContains text_lower kw)).length
    let score := (count : ℚ) / (max word_count 1 : ℕ) * 10
    (e.1, round3 (min score 1)))
  match maxByValue emotion_scores with
  | some primary =>
    { primary_emotion := primary.1
      emotion_scores := emotion_scores
      emoji := emojiFor load_emoji_map primary.1
      method := some "keywords" }
  | none =>
    { primary_emotion := "neutral"
      emotion_scores := emotion_scores ++ [("neutral", 1/2)]
      emoji := emojiFor load_emoji_map "neutral"
      method := some "keywords" }

/-- backend/nlp.py, emotion: HuggingFace tier on text[:512] first (a raise
anywhere in its try block, including max() on an empty score dict, falls
through), then the keyword tier. -/
def emotion (env : EmotionEnv) (text : String) : EmotionResult :=
  match env.pipe with
  | some pipe =>
    match pipe (strTake text 512) with
    | some results =>
      let emotion_scores := pyDict (results.map (fun r => (r.1, round3 r.2)))
      match maxByValue emotion_scores with
      | some primary =>
        { primary_emotion := primary.1
          emotion_scores := emotion_scores
          emoji := emojiFor load_emoji_map primary.1
          method := some "huggingface" }
      | none => emotionKeywordTier text
    | none => emotionKeywordTier text
  | none => emotionKeywordTier text

/-- backend/nlp.py, extract_themes stopword set of the fallback path. -/
def common_words : List String :=
  ["the", "a", "an", "and", "or", "but", "in", "on", "at", "to", "for"]

/-- list(set(words)): deduplication; Python's set iteration order is
arbitrary, modelled as first-occurrence order. -/
def pySetList (l : List String) : List String :=
  l.foldl (fun acc w => if w ∈ acc then acc else acc ++ [w]) []

/-- backend/nlp.py, extract_themes: the RAKE ranked phrases (an external
library, modelled as the oracle argument; none models a raise) are cut to
top_n and filtered to entries longer than 3 characters; the fallback path
splits the lowercased text, drops stopwords and short words, and
deduplicates. -/
def extract_themes (rake : String → Option (List String)) (text : String)
    (top_n : ℕ := 5) : List String :=
  match rake text with
  | some ranked =>
    let themes := ranked.take top_n
    let themes2 := themes.filter (fun t => decide (3 < t.length))
    themes2.take top_n
  | none =>
    let words := pySplitWs (pyLower text)
    let words2 := words.filter
      (fun w => !(common_words.contains w) && decide (3 < w.length))
    (pySetList words2).take top_n

/-- backend/nlp.py, calculate_mood_score: base score maps sentiment from
[-1,1] to [0,10]; emotion intensity pushes the score away from the middle;
the Python-rounded result is clamped into [0,10]. -/
def calculate_mood_score (sentiment_score emotion_intensity : ℚ) : ℤ :=
  let base_score := (sentiment_score + 1) * 5
  let adjusted_score :=
    if sentiment_score > 0 then base_score + emotion_intensity * 2
    else base_score - emotion_intensity * 2
  max 0 (min 10 (pyRound adjusted_score))

/-- The hardcoded default base suggestions of generate_suggestions, used
when the emotion is not a key of the emoji map. -/
def default_base_suggestions : List String :=
  ["Take a few deep breaths",
   "Write down your thoughts",
   "Talk to someone you trust"]

/-- The work/career keyword group of generate_suggestions. -/
def gsWorkKeywords : List String :=
  ["work", "job", "career", "boss", "colleague", "project"]

/-- The relationship keyword group of generate_suggestions. -/
def gsRelationshipKeywords : List String :=
  ["friend", "family", "partner", "relationship", "love"]

/-- backend/nlp.py, generate_suggestions: base suggestions from the emoji
map entry for the emotion (hardcoded default triple when absent), plus one
fixed suggestion per matched keyword group in the joined lowercased theme
text, truncated to 5. -/
def generate_suggestions (primary_emotion : String) (themes : List String) :
    List String :=
  let base_suggestions :=
    match assocFind load_emoji_map primary_emotion with
    | some emotion_data => emotion_data.suggestions
    | none => default_base_suggestions
  let joined := pyLower (joinWith " " themes)
  let theme_suggestions :=
    (if gsWorkKeywords.any (fun kw => strContains joined kw) then
      ["Consider taking a short break from work tasks"]
    else []) ++
    (if gsRelationshipKeywords.any (fun kw => strContains joined kw) then
      ["Reach out to someone you care about"]
    else [])
  (base_suggestions ++ theme_suggestions).take 5

/-- Word characters for the regex word boundary \x5cb. -/
def isWordChar (c : Char) : Bool :=
  c.isAlphanum || c == '_'

/-- Whether the character at index i (out of range counts as non-word) is
a word character. -/
def isWordAt (t : List Char) (i : ℕ) : Bool :=
  match t.get? i with
  | some c => isWordChar c
  | none => false

/-- Regex word boundary between positions i-1 and i. -/
def boundaryAt (t : List Char) (i : ℕ) : Bool :=
  (if i = 0 then false else isWordAt t (i - 1)) != isWordAt t i

/-- Case-insensitive literal match of p at position i of t, with word
boundaries on both sides (the regex \x5cb escaped-theme \x5cb with
IGNORECASE). -/
def matchAt (t p : List Char) (i : ℕ) : Bool :=
  (((t.drop i).take p.length).map Char.toLower == p.map Char.toLower) &&
  boundaryAt t i && boundaryAt t (i + p.length)

/-- Left-to-right non-overlapping scan collecting matched substrings, as
re.findall; fuel-driven recursion over the scan position. -/
def findAllAux (t p : List Char) : ℕ → ℕ → List String
  | 0, _ => []
  | fuel + 1, i =>
    if i ≤ t.length then
      if matchAt t p i then
        (⟨(t.drop i).take p.length⟩ : String) ::
          findAllAux t p fuel (i + max p.length 1)
      else findAllAux t p fuel (i + 1)
    else []

/-- re.findall of the whole-word case-insensitive theme pattern over the
original text. -/
def findThemeMatches (text theme : String) : List String :=
  findAllAux text.data theme.data (text.data.length + 1) 0

/-- The process-wide classifier environment analyze_text runs in. -/
structure AnalysisEnv where
  sent : SentimentEnv
  emo : EmotionEnv
  rake : String → Option (List String)

/-- The metadata block of an analysis. -/
structure Metadata where
  text_length : ℕ
  word_count : ℕ
  models_used_sentiment : Option String
  models_used_emotion : Option String

/-- The complete analysis record assembled by analyze_text. -/
structure Analysis where
  sentiment : SentimentResult
  emotion : EmotionResult
  mood_score : ℤ
  themes : List String
  highlighted_phrases : List (String × List String)
  suggestions : List String
  metadata : Metadata

/-- max() over the values of a score dict, with a junk default on the
empty dict (where Python would raise; emotion_scores_ne_nil below shows
the dict reaching this call is never empty). -/
def maxScores (l : List (String × ℚ)) : ℚ :=
  (listMaxQ (l.map Prod.snd)).getD 0

/-- backend/nlp.py, analyze_text: preprocess, classify sentiment and
emotion on the cleaned text, extract themes from the original text,
combine the sentiment score with the peak emotion score into the mood
score, generate suggestions, highlight theme occurrences, and assemble
the result with its metadata. -/
def analyze_text (env : AnalysisEnv) (text : String) : Analysis :=
  let cleaned_text := preprocess text
  let sentiment_result := sentiment env.sent cleaned_text
  let emotion_result := emotion env.emo cleaned_text
  let themes := extract_themes env.rake text
  let emotion_intensity := maxScores emotion_result.emotion_scores
  let mood_score := calculate_mood_score sentiment_result.score emotion_intensity
  let suggestions := generate_suggestions emotion_result.primary_emotion themes
  let highlighted_phrases := themes.filterMap (fun theme =>
    let ms := findThemeMatches text theme
    if ms.isEmpty then none else some (theme, ms.take 3))
  { sentiment := sentiment_result
    emotion := emotion_result
    mood_score := mood_score
    themes := themes
    highlighted_phrases := highlighted_phrases
    suggestions := suggestions
    metadata :=
      { text_length := text.length
        word_count := (pySplitWs text).length
        models_used_sentiment := sentiment_result.method
        models_used_emotion := emotion_result.method } }

/-- The keys of an emotion score dict. -/
def resultKeys (l : List (String × ℚ)) : List String :=
  l.map Prod.fst

/-- Whether any EMOTION_KEYWORDS keyword occurs in the lowercased text
(the condition under which the keyword tier scores are not all zero). -/
def anyKeywordMatch (text : String) : Bool :=
  EMOTION_KEYWORDS.any (fun e => e.2.any (fun kw => strContains (pyLower text) kw))

end EmotionCompanion.Nlp

namespace EmotionCompanion

/-- Modelled from the spec (and the claim): the mood-score formula with
the clamp applied before the rounding, for comparison with the source's
calculate_mood_score, which rounds first and clamps afterwards. -/
def mood_score_spec (sentiment_score emotion_intensity : ℚ) : ℤ :=
  let base := (sentiment_score + 1) * 5
  let adjusted :=
    if sentiment_score > 0 then base + 2 * emotion_intensity
    else base - 2 * emotion_intensity
  pyRound (max 0 (min 10 adjusted))

/-- The basic suggestion generator as the amended claim describes it: base
suggestions from the emoji/suggestion table entry for the emotion, with
the hardcoded default triple (not the neutral entry) when the emotion is
absent from the table; one appended suggestion per matched keyword group
among the two fixed groups (work/career and relationships; there is no
school group); truncation to 5 entries, base suggestions first. -/
def generate_suggestions_spec (primary_emotion : String) (themes : List String) :
    List String :=
  let base :=
    ((assocFind Nlp.load_emoji_map primary_emotion).map Nlp.EmojiEntry.suggestions).getD
      Nlp.default_base_suggestions
  let joined := pyLower (Nlp.joinWith " " themes)
  (base ++
    (if Nlp.gsWorkKeywords.any (fun kw => strContains joined kw) then
      ["Consider taking a short break from work tasks"]
    else []) ++
    (if Nlp.gsRelationshipKeywords.any (fun kw => strContains joined kw) then
      ["Reach out to someone you care about"]
    else [])).take 5

/-- A trained sentiment model for concrete instantiations: binary
classifier predicting POSITIVE with probability vector [0.1, 0.9]. -/
def trainedSentModel : MlService.SentModel :=
  { classes := ["NEGATIVE", "POSITIVE"]
    predict := fun _ => some "POSITIVE"
    proba := fun _ => some [1/10, 9/10] }

/-- A process state in which every sentiment tier is available: the
HuggingFace pipeline, VADER, and the trained classifier. -/
def c7Env : Nlp.SentimentEnv :=
  { hf := some (fun _ => some ("POSITIVE", 9/10))
    vader := some (fun _ => some (1/2))
    trained := some trainedSentModel }

/-- A trained emotion model for concrete instantiations. -/
def c8Model : MlService.EmoModel :=
  { classes := ["joy", "sadness"]
    predict := fun _ => some "joy"
    proba := fun _ => some [3/5, 2/5] }

end EmotionCompanion

namespace EmotionCompanion

theorem pyRound_ge_floor (q : ℚ) : ⌊q⌋ ≤ pyRound q := by
  unfold pyRound
  split_ifs <;> omega

theorem pyRound_le_floor_add_one (q : ℚ) : pyRound q ≤ ⌊q⌋ + 1 := by
  unfold pyRound
  split_ifs <;> omega

theorem pyRound_intCast (n : ℤ) : pyRound (n : ℚ) = n := by
  unfold pyRound
  rw [Int.floor_intCast]
  norm_num

/-- If q is nonpositive, so is its Python rounding. -/
theorem pyRound_nonpos {q : ℚ} (h : q ≤ 0) : pyRound q ≤ 0 := by
  rcases eq_or_lt_of_le h with heq | hlt
  · rw [heq, show ((0:ℚ)) = ((0:ℤ):ℚ) by norm_num, pyRound_intCast]
  · have hfl : ⌊q⌋ ≤ -1 := by
      have : ⌊q⌋ < 0 := Int.floor_lt.mpr (by exact_mod_cast hlt)
      omega
    have := pyRound_le_floor_add_one q
    omega

/-- If q is nonnegative, so is its Python rounding. -/
theorem pyRound_nonneg {q : ℚ} (h : 0 ≤ q) : 0 ≤ pyRound q := by
  have hfl : (0:ℤ) ≤ ⌊q⌋ := Int.floor_nonneg.mpr h
  have := pyRound_ge_floor q
  omega

/-- If q ≤ 10 then its Python rounding is ≤ 10. -/
theorem pyRound_le_ten {q : ℚ} (h : q ≤ 10) : pyRound q ≤ 10 := by
  by_cases h9 : ⌊q⌋ ≤ 9
  · have := pyRound_le_floor_add_one q
    omega
  · have hfl : ⌊q⌋ = 10 := by
      have : ⌊q⌋ ≤ ⌊(10:ℚ)⌋ := Int.floor_le_floor (by exact_mod_cast h)
      have h10 : ⌊(10:ℚ)⌋ = 10 := by norm_num
      omega
    have hq10 : q = 10 := by
      have hle : ((10:ℤ):ℚ) ≤ q := by
        rw [← hfl]; exact Int.floor_le q
      have : (10:ℚ) ≤ q := by exact_mod_cast hle
      linarith
    rw [hq10, show ((10:ℚ)) = ((10:ℤ):ℚ) by norm_num, pyRound_intCast]

/-- If 10 ≤ q then its Python rounding is ≥ 10. -/
theorem pyRound_ge_ten {q : ℚ} (h : 10 ≤ q) : 10 ≤ pyRound q := by
  have hfl : (10:ℤ) ≤ ⌊q⌋ := by
    have : ⌊(10:ℚ)⌋ ≤ ⌊q⌋ := Int.floor_le_floor h
    have h10 : ⌊(10:ℚ)⌋ = 10 := by norm_num
    omega
  have := pyRound_ge_floor q
  omega

/-- Clamping to [0,10] commutes with Python rounding (the integer bounds 0
and 10 are fixed points of the rounding). -/
theorem pyRound_clamp (q : ℚ) :
    max 0 (min 10 (pyRound q)) = pyRound (max 0 (min 10 q)) := by
  rcases le_or_lt q 0 with h0 | h0
  · have hmin : min (10:ℚ) q = q := min_eq_right (by linarith)
    have hmax : max (0:ℚ) q = 0 := max_eq_left h0
    rw [hmin, hmax, show ((0:ℚ)) = ((0:ℤ):ℚ) by norm_num, pyRound_intCast]
    have h1 : pyRound q ≤ 0 := pyRound_nonpos h0
    have h2 : min (10:ℤ) (pyRound q) = pyRound q := min_eq_right (by omega)
    rw [h2]
    omega
  · rcases le_or_lt q 10 with h10 | h10
    · have hmin : min (10:ℚ) q = q := min_eq_right h10
      have hmax : max (0:ℚ) q = q := max_eq_right (le_of_lt h0)
      rw [hmin, hmax]
      have h1 : 0 ≤ pyRound q := pyRound_nonneg (le_of_lt h0)
      have h2 : pyRound q ≤ 10 := pyRound_le_ten h10
      have h3 : min (10:ℤ) (pyRound q) = pyRound q := min_eq_right h2
      rw [h3]
      omega
    · have hmin : min (10:ℚ) q = 10 := min_eq_left (le_of_lt h10)
      have hmax : max (0:ℚ) (10:ℚ) = 10 := by norm_num
      rw [hmin, hmax, show ((10:ℚ)) = ((10:ℤ):ℚ) by norm_num, pyRound_intCast]
      have h1 : 10 ≤ pyRound q := pyRound_ge_ten (le_of_lt h10)
      have h2 : min (10:ℤ) (pyRound q) = 10 := min_eq_left (by omega)
      rw [h2]
      omega

theorem assocFind_mem {α : Type} {l : List (String × α)} {k : String} {v : α}
    (h : assocFind l k = some v) : (k, v) ∈ l := by
  unfold assocFind at h
  cases hf : l.find? (fun p => p.1 == k) with
  | none => rw [hf] at h; cases h
  | some p =>
    rw [hf] at h
    cases h
    have hmem := List.mem_of_find?_eq_some hf
    have hp := List.find?_some hf
    have hk : p.1 = k := by
      have := of_decide_eq_true hp
      exact this
    obtain ⟨p1, p2⟩ := p
    cases hk
    exact hmem

/-- The foldl used by maxByValue only ever returns the seed or a list
element. -/
theorem foldl_pick_mem (xs : List (String × ℚ)) (x : String × ℚ) :
    xs.foldl (fun acc y => if y.2 > acc.2 then y else acc) x ∈ x :: xs := by
  induction xs generalizing x with
  | nil => simp [List.foldl]
  | cons y ys ih =>
    simp only [List.foldl]
    have h := ih (if y.2 > x.2 then y else x)
    rcases List.mem_cons.mp h with h | h
    · rw [h]
      by_cases hc : y.2 > x.2
      · simp only [if_pos hc]
        exact List.mem_cons_of_mem _ (List.mem_cons_self _ _)
      · simp only [if_neg hc]
        exact List.mem_cons_self _ _
    · exact List.mem_cons_of_mem _ (List.mem_cons_of_mem _ h)

theorem maxByValue_mem {l : List (String × ℚ)} {p : String × ℚ}
    (h : maxByValue l = some p) : p ∈ l := by
  cases l with
  | nil => cases h
  | cons x xs =>
    unfold maxByValue at h
    injection h with h
    rw [← h]
    exact foldl_pick_mem xs x

end EmotionCompanion

namespace EmotionCompanion.Nlp

theorem calculate_mood_score_nonneg (s i : ℚ) : 0 ≤ calculate_mood_score s i :=
  le_max_left _ _

theorem calculate_mood_score_le_ten (s i : ℚ) : calculate_mood_score s i ≤ 10 :=
  max_le (by norm_num) (min_le_left _ _)

end EmotionCompanion.Nlp

namespace EmotionCompanion

open EmotionCompanion.Suggestions in
/-- C2: for every sentiment_score in [-1,1] and emotion_intensity in
[0,1], calculate_mood_score equals round(clamp(base ± 2·intensity, 0, 10))
with base = (sentiment_score+1)·5, the subtracting branch taken when
sentiment_score ≤ 0; and analyze_text's mood_score field is exactly this
function applied to the sentiment score and the maximum of the emotion
score distribution. -/
theorem c2_mood_score_formula :
    (∀ s i : ℚ, -1 ≤ s → s ≤ 1 → 0 ≤ i → i ≤ 1 →
      Nlp.calculate_mood_score s i = mood_score_spec s i) ∧
    (∀ (env : Nlp.AnalysisEnv) (text : String),
      (Nlp.analyze_text env text).mood_score =
        Nlp.calculate_mood_score (Nlp.sentiment env.sent (Nlp.preprocess text)).score
          (Nlp.maxScores (Nlp.emotion env.emo (Nlp.preprocess text)).emotion_scores)) := by
  constructor
  · intro s i _ _ _ _
    unfold Nlp.calculate_mood_score mood_score_spec
    dsimp only
    rw [pyRound_clamp]
    congr 1
    split_ifs <;> ring_nf
  · intro env text
    rfl

/-- C2 witness: the two sides of the formula agree at sentiment 0.5,
intensity 0.5 (both give mood score 8). -/
theorem c2_witness :
    Nlp.calculate_mood_score (1/2) (1/2) = mood_score_spec (1/2) (1/2) ∧
    Nlp.calculate_mood_score (1/2) (1/2) = 8 :=
  ⟨c2_mood_score_formula.1 (1/2) (1/2) (by decide) (by decide) (by decide) (by decide),
   by decide⟩

/-- C3 counterexample: at mood_score 6 (with any confidence, here 0.9) the
source returns "mild", not the "moderate" the claim requires for every
mood_score in 4..7. -/
theorem c3_counterexample :
    Suggestions.get_emotion_intensity 6 (9/10) = "mild" ∧
    Suggestions.get_emotion_intensity 6 (9/10) ≠ "moderate" := by
  refine ⟨by decide, by decide⟩

/-- C3 amended: on mood scores 0..10, "intense" exactly on the extreme
band (≤3 or ≥8) with confidence above 0.7, "moderate" on the extreme band
with confidence ≤ 0.7 and on mood scores 4, 5 and 7, and "mild" exactly at
mood score 6 (not on all of 4..7 as the claim states). -/
theorem c3_intensity_bands (m : ℤ) (c : ℚ) (hlo : 0 ≤ m) (hhi : m ≤ 10) :
    (Suggestions.get_emotion_intensity m c = "intense" ↔
      ((m ≤ 3 ∨ 8 ≤ m) ∧ 7/10 < c)) ∧
    (Suggestions.get_emotion_intensity m c = "moderate" ↔
      (((m ≤ 3 ∨ 8 ≤ m) ∧ c ≤ 7/10) ∨ m = 4 ∨ m = 5 ∨ m = 7)) ∧
    (Suggestions.get_emotion_intensity m c = "mild" ↔ m = 6) := by
  unfold Suggestions.get_emotion_intensity
  rcases le_or_lt c (7/10) with hc | hc
  · interval_cases m <;> simp [not_lt.mpr hc, hc]
  · interval_cases m <;> simp [hc, not_le.mpr hc]

/-- C3 witness: the characterization applied at mood score 6. -/
theorem c3_witness : Suggestions.get_emotion_intensity 6 0 = "mild" :=
  ((c3_intensity_bands 6 0 (by decide) (by decide)).2.2).mpr rfl

/-- C4: generate_personalized_suggestions attaches the crisis block
exactly when the computed intensity is "intense" and the normalized
emotion is sadness, anxiety or fear. -/
theorem c4_crisis_resources_iff (sample : List String → ℕ → List String)
    (emotion : String) (mood_score : ℤ) (text : String) (c : ℚ) :
    (Suggestions.generate_personalized_suggestions sample emotion mood_score text c).crisis_resources ≠ none ↔
      (Suggestions.get_emotion_intensity mood_score c = "intense" ∧
        Suggestions.normalize_emotion emotion ∈ ["sadness", "anxiety", "fear"]) := by
  unfold Suggestions.generate_personalized_suggestions
  dsimp only
  split_ifs with h
  · simpa using h
  · simpa using h

/-- C5 counterexample: "work health" has one work hit and one health hit,
so no domain has a strictly highest count, yet the source returns
"health" rather than the "general" the claim requires on ties. -/
theorem c5_counterexample :
    Suggestions.keywordCount Suggestions.work_keywords (pyLower "work health") = 1 ∧
    Suggestions.keywordCount Suggestions.relationship_keywords (pyLower "work health") = 0 ∧
    Suggestions.keywordCount Suggestions.health_keywords (pyLower "work health") = 1 ∧
    Suggestions.get_life_domain "work health" = "health" ∧
    Suggestions.get_life_domain "work health" ≠ "general" := by
  refine ⟨by decide, by decide, by decide, by decide, by decide⟩

/-- C5 amended: work and relationships win only with a strictly highest
count; otherwise health is returned whenever its count is positive (even
on ties), and "general" is returned exactly when neither work nor
relationships is a strict winner and the health count is zero. -/
theorem c5_life_domain_bands (text : String) :
    (Suggestions.get_life_domain text = "work" ↔
      (Suggestions.keywordCount Suggestions.work_keywords (pyLower text) >
        Suggestions.keywordCount Suggestions.relationship_keywords (pyLower text) ∧
       Suggestions.keywordCount Suggestions.work_keywords (pyLower text) >
        Suggestions.keywordCount Suggestions.health_keywords (pyLower text))) ∧
    (Suggestions.get_life_domain text = "relationships" ↔
      (¬(Suggestions.keywordCount Suggestions.work_keywords (pyLower text) >
          Suggestions.keywordCount Suggestions.relationship_keywords (pyLower text) ∧
         Suggestions.keywordCount Suggestions.work_keywords (pyLower text) >
          Suggestions.keywordCount Suggestions.health_keywords (pyLower text)) ∧
       Suggestions.keywordCount Suggestions.relationship_keywords (pyLower text) >
        Suggestions.keywordCount Suggestions.work_keywords (pyLower text) ∧
       Suggestions.keywordCount Suggestions.relationship_keywords (pyLower text) >
        Suggestions.keywordCount Suggestions.health_keywords (pyLower text))) ∧
    (Suggestions.get_life_domain text = "health" ↔
      (¬(Suggestions.keywordCount Suggestions.work_keywords (pyLower text) >
          Suggestions.keywordCount Suggestions.relationship_keywords (pyLower text) ∧
         Suggestions.keywordCount Suggestions.work_keywords (pyLower text) >
          Suggestions.keywordCount Suggestions.health_keywords (pyLower text)) ∧
       ¬(Suggestions.keywordCount Suggestions.relationship_keywords (pyLower text) >
          Suggestions.keywordCount Suggestions.work_keywords (pyLower text) ∧
         Suggestions.keywordCount Suggestions.relationship_keywords (pyLower text) >
          Suggestions.keywordCount Suggestions.health_keywords (pyLower text)) ∧
       Suggestions.keywordCount Suggestions.health_keywords (pyLower text) > 0)) ∧
    (Suggestions.get_life_domain text = "general" ↔
      (¬(Suggestions.keywordCount Suggestions.work_keywords (pyLower text) >
          Suggestions.keywordCount Suggestions.relationship_keywords (pyLower text) ∧
         Suggestions.keywordCount Suggestions.work_keywords (pyLower text) >
          Suggestions.keywordCount Suggestions.health_keywords (pyLower text)) ∧
       ¬(Suggestions.keywordCount Suggestions.relationship_keywords (pyLower text) >
          Suggestions.keywordCount Suggestions.work_keywords (pyLower text) ∧
         Suggestions.keywordCount Suggestions.relationship_keywords (pyLower text) >
          Suggestions.keywordCount Suggestions.health_keywords (pyLower text)) ∧
       Suggestions.keywordCount Suggestions.health_keywords (pyLower text) = 0)) := by
  unfold Suggestions.get_life_domain
  dsimp only
  split_ifs with h1 h2 h3 <;> refine ⟨?_, ?_, ?_, ?_⟩ <;> simp <;> omega

end EmotionCompanion

namespace EmotionCompanion.Nlp

/-- Elements produced by the dedup fold of pySetList come from the
accumulator or the folded list. -/
theorem foldl_dedup_mem (l : List String) :
    ∀ (acc : List String) (w : String),
      w ∈ l.foldl (fun acc w => if w ∈ acc then acc else acc ++ [w]) acc →
      w ∈ acc ∨ w ∈ l := by
  induction l with
  | nil =>
    intro acc w h
    simp only [List.foldl_nil] at h
    exact Or.inl h
  | cons x xs ih =>
    intro acc w h
    simp only [List.foldl_cons] at h
    rcases ih _ w h with h' | h'
    · by_cases hx : x ∈ acc
      · rw [if_pos hx] at h'
        exact Or.inl h'
      · rw [if_neg hx] at h'
        rcases List.mem_append.mp h' with h'' | h''
        · exact Or.inl h''
        · right
          simp only [List.mem_singleton] at h''
          simp [h'']
    · exact Or.inr (List.mem_cons_of_mem _ h')

theorem pySetList_sub (l : List String) : ∀ w ∈ pySetList l, w ∈ l := by
  intro w h
  rcases foldl_dedup_mem l [] w h with h' | h'
  · cases h'
  · exact h'

theorem extract_themes_length (rake : String → Option (List String))
    (text : String) : (extract_themes rake text).length ≤ 5 := by
  unfold extract_themes
  cases rake text with
  | some ranked =>
    dsimp only
    simp only [List.length_take]
    omega
  | none =>
    dsimp only
    simp only [List.length_take]
    omega

theorem extract_themes_long (rake : String → Option (List String))
    (text : String) : ∀ t ∈ extract_themes rake text, 3 < t.length := by
  intro t ht
  unfold extract_themes at ht
  cases hr : rake text with
  | some ranked =>
    rw [hr] at ht
    dsimp only at ht
    have h1 := List.take_subset _ _ ht
    have h2 := List.mem_filter.mp h1
    exact of_decide_eq_true h2.2
  | none =>
    rw [hr] at ht
    dsimp only at ht
    have h1 := List.take_subset _ _ ht
    have h2 := pySetList_sub _ _ h1
    have h3 := List.mem_filter.mp h2
    have h4 := (Bool.and_eq_true _ _).mp h3.2
    exact of_decide_eq_true h4.2

theorem generate_suggestions_length (e : String) (themes : List String) :
    (generate_suggestions e themes).length ≤ 5 := by
  unfold generate_suggestions
  dsimp only
  simp only [List.length_take]
  exact Nat.min_le_left _ _

end EmotionCompanion.Nlp

namespace EmotionCompanion

/-- C1: analyze_text is total over all inputs and classifier states
(every stage of the embedding has a terminal fallback value), the mood
score is an integer in [0,10], there are at most 5 themes each longer
than 3 characters, and at most 5 suggestions. -/
theorem c1_analyze_text_wellformed (env : Nlp.AnalysisEnv) (text : String) :
    0 ≤ (Nlp.analyze_text env text).mood_score ∧
    (Nlp.analyze_text env text).mood_score ≤ 10 ∧
    (Nlp.analyze_text env text).themes.length ≤ 5 ∧
    (∀ t ∈ (Nlp.analyze_text env text).themes, 3 < t.length) ∧
    (Nlp.analyze_text env text).suggestions.length ≤ 5 := by
  refine ⟨?_, ?_, ?_, ?_, ?_⟩
  · exact Nlp.calculate_mood_score_nonneg _ _
  · exact Nlp.calculate_mood_score_le_ten _ _
  · exact Nlp.extract_themes_length _ _
  · exact Nlp.extract_themes_long _ _
  · exact Nlp.generate_suggestions_length _ _

/-- C6: evaluation at the failing input "zzz", a text matching no emotion
keyword. The keyword tier returns primary_emotion "happy" with an
all-zero score dict; the documented neutral/0.5 default is not produced
(its guard tests dict emptiness, and the dict always carries the seven
keyword-table keys). -/
theorem c6_no_match_eval :
    Nlp.anyKeywordMatch "zzz" = false ∧
    (Nlp.emotion ⟨none⟩ "zzz").primary_emotion = "happy" ∧
    (Nlp.emotion ⟨none⟩ "zzz").primary_emotion ≠ "neutral" ∧
    (Nlp.emotion ⟨none⟩ "zzz").emotion_scores.map Prod.snd = [0, 0, 0, 0, 0, 0, 0] ∧
    assocFind (Nlp.emotion ⟨none⟩ "zzz").emotion_scores "neutral" = none := by
  refine ⟨by decide, by decide, by decide, by decide, by decide⟩

end EmotionCompanion

namespace EmotionCompanion

/-- C7 counterexample: with every tier available (trained classifier
included), nlp.sentiment returns the HuggingFace-tier result, not the
trained-classifier result the claim requires. -/
theorem c7_counterexample :
    c7Env.trained = some trainedSentModel ∧
    (Nlp.sentiment c7Env "hello").method = some "huggingface" ∧
    (MlService.predict_sentiment c7Env.trained "hello").method = some "logistic_regression" ∧
    Nlp.sentiment c7Env "hello" ≠ MlService.predict_sentiment c7Env.trained "hello" := by
  refine ⟨rfl, by decide, by decide, by decide⟩

/-- C7 amended: nlp.sentiment never consults the trained classifier (its
result is unchanged by removing it); its first tier is the HuggingFace
pipeline, whose result it returns whenever that pipeline answers; and
ml_service.predict_sentiment, which no sentiment path calls, returns
confidence = max class probability and score = (P(POSITIVE) − 0.5) × 2
when the model is loaded and prediction succeeds. -/
theorem c7_sentiment_tiers :
    (∀ (env : Nlp.SentimentEnv) (text : String),
      Nlp.sentiment env text = Nlp.sentiment { env with trained := none } text) ∧
    (∀ (env : Nlp.SentimentEnv) (text : String)
      (pipe : String → Option (String × ℚ)) (label : String) (conf : ℚ),
      env.hf = some pipe → pipe (Nlp.strTake text 512) = some (label, conf) →
      Nlp.sentiment env text =
        { label := label
          score := round3 (if label = "POSITIVE" then conf else -conf)
          confidence := round3 conf
          method := some "huggingface" }) ∧
    (∀ (m : MlService.SentModel) (text prediction : String) (probas : List ℚ)
      (confidence pos_prob : ℚ),
      m.predict text = some prediction →
      m.proba text = some probas →
      listMaxQ probas = some confidence →
      probas.get? (if "POSITIVE" ∈ m.classes then m.classes.indexOf "POSITIVE" else 1) =
        some pos_prob →
      MlService.predict_sentiment (some m) text =
        { label := prediction
          score := round3 ((pos_prob - 1/2) * 2)
          confidence := round3 confidence
          method := some "logistic_regression" }) := by
  refine ⟨?_, ?_, ?_⟩
  · intro env text
    rcases env with ⟨hf, vader, trained⟩
    rfl
  · intro env text pipe label conf hhf hpipe
    unfold Nlp.sentiment
    rw [hhf]
    dsimp only
    rw [hpipe]
  · intro m text prediction probas confidence pos_prob hpred hproba hmax hidx
    unfold MlService.predict_sentiment
    dsimp only
    rw [hpred]
    dsimp only
    rw [hproba]
    dsimp only
    rw [hmax]
    dsimp only
    rw [hidx]

/-- C7 witness: the HuggingFace-first statement applied in the
all-tiers-available environment. -/
theorem c7_witness :
    Nlp.sentiment c7Env "ok" =
      { label := "POSITIVE"
        score := round3 (if "POSITIVE" = "POSITIVE" then (9/10 : ℚ) else -(9/10))
        confidence := round3 (9/10)
        method := some "huggingface" } :=
  c7_sentiment_tiers.2.1 c7Env "ok" (fun _ => some ("POSITIVE", 9/10)) "POSITIVE" (9/10)
    rfl rfl

end EmotionCompanion

namespace EmotionCompanion

theorem maxByValue_eq_none {l : List (String × ℚ)} (h : maxByValue l = none) :
    l = [] := by
  cases l with
  | nil => rfl
  | cons x xs => cases h

theorem primary_of_maxByValue {l : List (String × ℚ)} {p : String × ℚ}
    (h : maxByValue l = some p) : p.1 ∈ Nlp.resultKeys l :=
  List.mem_map.mpr ⟨p, maxByValue_mem h, rfl⟩

theorem emotionKeywordTier_invariant (text : String) :
    (Nlp.emotionKeywordTier text).primary_emotion ∈
      Nlp.resultKeys (Nlp.emotionKeywordTier text).emotion_scores := by
  unfold Nlp.emotionKeywordTier
  dsimp only
  split
  · next p hp =>
    exact primary_of_maxByValue hp
  · next hn =>
    simp [Nlp.resultKeys]

/-- C8: on every path of the emotion classifier — transformer tier,
keyword tier, and the trained model with its unavailable and error
fallbacks — the primary emotion is a key of the emotion score dict. For
the trained model's success path this relies on the scikit-learn contract
that predict returns one of classes_ and predict_proba has one entry per
class. -/
theorem c8_primary_in_scores :
    (∀ (env : Nlp.EmotionEnv) (text : String),
      (Nlp.emotion env text).primary_emotion ∈
        Nlp.resultKeys (Nlp.emotion env text).emotion_scores) ∧
    (∀ (m : MlService.EmoModel) (text primary : String) (probas : List ℚ),
      m.predict text = some primary → m.proba text = some probas →
      primary ∈ m.classes → m.classes.length ≤ probas.length →
      (MlService.predict_emotion (some m) text).primary_emotion ∈
        Nlp.resultKeys (MlService.predict_emotion (some m) text).emotion_scores) ∧
    (∀ text : String,
      (MlService.predict_emotion none text).primary_emotion ∈
        Nlp.resultKeys (MlService.predict_emotion none text).emotion_scores) ∧
    (∀ (m : MlService.EmoModel) (text : String), m.predict text = none →
      (MlService.predict_emotion (some m) text).primary_emotion ∈
        Nlp.resultKeys (MlService.predict_emotion (some m) text).emotion_scores) ∧
    (∀ (m : MlService.EmoModel) (text primary : String),
      m.predict text = some primary → m.proba text = none →
      (MlService.predict_emotion (some m) text).primary_emotion ∈
        Nlp.resultKeys (MlService.predict_emotion (some m) text).emotion_scores) := by
  refine ⟨?_, ?_, ?_, ?_, ?_⟩
  · intro env text
    unfold Nlp.emotion
    rcases env with ⟨pipe?⟩
    dsimp only
    cases pipe? with
    | none => exact emotionKeywordTier_invariant text
    | some pipe =>
      dsimp only
      cases hpr : pipe (Nlp.strTake text 512) with
      | none => exact emotionKeywordTier_invariant text
      | some results =>
        dsimp only
        split
        · next p hp =>
          exact primary_of_maxByValue hp
        · next hn =>
          exact emotionKeywordTier_invariant text
  · intro m text primary probas hpred hproba hmem hlen
    unfold MlService.predict_emotion
    dsimp only
    rw [hpred]
    dsimp only
    rw [hproba]
    dsimp only
    simp only [Nlp.resultKeys, List.map_map]
    have hkeys : (m.classes.zip probas).map (Prod.fst ∘ fun cp => (cp.1, round3 cp.2)) =
        (m.classes.zip probas).map Prod.fst := by
      apply List.map_congr_left
      intro cp _
      rfl
    rw [hkeys, List.map_fst_zip _ _ hlen]
    exact hmem
  · intro text
    show ("neutral" : String) ∈ Nlp.resultKeys [("neutral", 1/2)]
    decide
  · intro m text hpred
    unfold MlService.predict_emotion
    dsimp only
    rw [hpred]
    show ("neutral" : String) ∈ Nlp.resultKeys [("neutral", 1/2)]
    decide
  · intro m text primary hpred hproba
    unfold MlService.predict_emotion
    dsimp only
    rw [hpred]
    dsimp only
    rw [hproba]
    show ("neutral" : String) ∈ Nlp.resultKeys [("neutral", 1/2)]
    decide

/-- C8 witness: the trained-model statement applied to a concrete binary
emotion model. -/
theorem c8_witness :
    (MlService.predict_emotion (some c8Model) "hi").primary_emotion ∈
      Nlp.resultKeys (MlService.predict_emotion (some c8Model) "hi").emotion_scores :=
  c8_primary_in_scores.2.1 c8Model "hi" "joy" [3/5, 2/5] rfl rfl (by decide) (by decide)

end EmotionCompanion

namespace EmotionCompanion

/-- C9 counterexample: for an emotion absent from the table ("excited"),
generate_suggestions falls back to the hardcoded default triple, which is
not the neutral entry of the table; and a theme hitting the claimed
"school" group ("school") appends nothing. -/
theorem c9_counterexample :
    Nlp.generate_suggestions "excited" [] = Nlp.default_base_suggestions ∧
    assocFind Nlp.load_emoji_map "excited" = none ∧
    assocFind Nlp.load_emoji_map "neutral" =
      some { emoji := "😐"
             suggestions := ["Check in with yourself regularly",
                             "Try journaling about your day",
                             "Practice mindfulness"] } ∧
    Nlp.generate_suggestions "excited" [] ≠
      ["Check in with yourself regularly", "Try journaling about your day",
       "Practice mindfulness"] ∧
    Nlp.generate_suggestions "neutral" ["school"] =
      ["Check in with yourself regularly", "Try journaling about your day",
       "Practice mindfulness"] := by
  refine ⟨by decide, by decide, by decide, by decide, by decide⟩

/-- C9 amended: generate_suggestions equals the spec-side description
with the hardcoded default triple as the out-of-table fallback and only
two theme keyword groups (work/career and relationships, no school
group); the result is capped at 5 entries, base suggestions first. -/
theorem c9_generate_suggestions_amended (primary_emotion : String)
    (themes : List String) :
    Nlp.generate_suggestions primary_emotion themes =
      generate_suggestions_spec primary_emotion themes ∧
    (Nlp.generate_suggestions primary_emotion themes).length ≤ 5 := by
  constructor
  · unfold Nlp.generate_suggestions generate_suggestions_spec
    dsimp only
    cases h : assocFind Nlp.load_emoji_map primary_emotion <;>
      simp [h, List.append_assoc]
  · unfold Nlp.generate_suggestions
    dsimp only
    simp only [List.length_take]
    exact Nat.min_le_left _ _

theorem intensity_cases (m : ℤ) (c : ℚ) :
    Suggestions.get_emotion_intensity m c = "intense" ∨
    Suggestions.get_emotion_intensity m c = "moderate" ∨
    Suggestions.get_emotion_intensity m c = "mild" := by
  unfold Suggestions.get_emotion_intensity
  split_ifs <;> simp

theorem intensity_take_two (m : ℤ) (c : ℚ) :
    (assocFind Suggestions.INTENSITY_MODIFIERS
        (Suggestions.get_emotion_intensity m c)).map
      (fun mod => (mod.suggestions.take 2).length) = some 2 := by
  rcases intensity_cases m c with h | h | h <;> rw [h] <;> decide

theorem general_pool_len (e : String) :
    (assocFind ((assocFind Suggestions.SUGGESTIONS_DATABASE
        (Suggestions.normalize_emotion e)).getD []) "general").map List.length =
      some 5 := by
  unfold Suggestions.normalize_emotion
  by_cases hs : (assocFind Suggestions.SUGGESTIONS_DATABASE (pyLower e)).isSome
  · rw [if_pos hs]
    obtain ⟨entry, he⟩ := Option.isSome_iff_exists.mp hs
    rw [he]
    have hmem := assocFind_mem he
    simp only [Suggestions.SUGGESTIONS_DATABASE, List.mem_cons,
      List.not_mem_nil, or_false] at hmem
    rcases hmem with h | h | h | h | h | h <;>
      (injection h with h1 h2; subst h2; decide)
  · rw [if_neg hs]
    decide

/-- C10: for every sampling outcome respecting the random.sample length
contract, generate_personalized_suggestions returns exactly 5
suggestions: the general pool of every normalized emotion has 5 entries
(3 are sampled) and every intensity tier contributes 2, so the
pre-truncation list has at least 5 elements. -/
theorem c10_personalized_suggestions_length
    (sample : List String → ℕ → List String)
    (hsample : ∀ (l : List String) (k : ℕ), k ≤ l.length → (sample l k).length = k)
    (emotion : String) (mood_score : ℤ) (text : String) (c : ℚ) :
    (Suggestions.generate_personalized_suggestions sample emotion mood_score
      text c).suggestions.length = 5 := by
  obtain ⟨g, hg, hglen⟩ := Option.map_eq_some'.mp (general_pool_len emotion)
  obtain ⟨mod, hmod, hmodlen⟩ := Option.map_eq_some'.mp (intensity_take_two mood_score c)
  have h3 : (sample g (min 3 g.length)).length = min 3 g.length :=
    hsample g (min 3 g.length) (Nat.min_le_right _ _)
  unfold Suggestions.generate_personalized_suggestions
  dsimp only
  rw [hg, hmod]
  dsimp only
  cases hd : assocFind ((assocFind Suggestions.SUGGESTIONS_DATABASE
      (Suggestions.normalize_emotion emotion)).getD [])
      (Suggestions.get_life_domain text) with
  | none =>
    simp only [List.length_take, List.length_append, List.length_nil, h3]
    simp only [List.length_take] at hmodlen
    omega
  | some ds =>
    have hds : (sample ds (min 2 ds.length)).length = min 2 ds.length :=
      hsample ds (min 2 ds.length) (Nat.min_le_right _ _)
    simp only [List.length_take, List.length_append, h3, hds]
    simp only [List.length_take] at hmodlen
    omega

/-- C10 witness: a take-based sampler satisfies the length contract; at a
concrete call the suggestion list has exactly 5 entries. -/
theorem c10_witness :
    (Suggestions.generate_personalized_suggestions (fun l k => l.take k)
      "anxiety" 2 "deadline stress at work" (9/10)).suggestions.length = 5 :=
  c10_personalized_suggestions_length (fun l k => l.take k)
    (fun l k hk => (List.length_take k l).trans (Nat.min_eq_left hk))
    "anxiety" 2 "deadline stress at work" (9/10)

end EmotionCompanion
